import Mathlib

/-!
Verification of the challenge-response authentication service
(`src/bin/verifier.rs`, `src/types.rs`).

The nonce store is a mutex-guarded `HashMap<String, NonceEntry>`; since every
handler takes the global lock for its whole body, the observable behaviour is a
sequential sequence of store operations.  We embed the store as an association
list from nonce strings to entries, the monotonic clock (`Instant`) as a `Nat`
passed explicitly (Rust `Instant` subtraction saturates at zero, matching `Nat`
subtraction), and `Duration` as a `Nat` of the same time unit.  The external
Ed25519 primitive (`ring::signature`) is a parameter of the handler model:
a function from public-key, message and signature bytes to a boolean.
-/

namespace ChallengeResponse

/-- `NonceEntry` from `verifier.rs`: creation instant and used flag. -/
structure NonceEntry where
  created_at : Nat
  used : Bool
  deriving DecidableEq, Repr

/-- The backing map of `NonceStore.nonces`, embedded as an association list
(the `HashMap` keeps at most one entry per key; update and removal below
preserve that). -/
abbrev NonceMap := List (String × NonceEntry)

/-- `HashMap::get` on the association list. -/
def lookupN (k : String) : NonceMap → Option NonceEntry
  | [] => none
  | (k', v) :: rest => if k' = k then some v else lookupN k rest

/-- In-place update through `HashMap::get_mut` (replace the value at an
existing key), also used for `HashMap::insert`. -/
def insertN (k : String) (v : NonceEntry) : NonceMap → NonceMap
  | [] => [(k, v)]
  | (k', v') :: rest => if k' = k then (k, v) :: rest else (k', v') :: insertN k v rest

/-- `HashMap::remove`. -/
def eraseN (k : String) : NonceMap → NonceMap
  | [] => []
  | (k', v') :: rest => if k' = k then rest else (k', v') :: eraseN k rest

/-- `NonceStore` from `verifier.rs`. -/
structure NonceStore where
  nonces : NonceMap
  expiration_time : Nat
  deriving DecidableEq, Repr

namespace NonceStore

/-- `NonceStore::new(expiration_seconds)`. -/
def new (expiration_seconds : Nat) : NonceStore :=
  { nonces := [], expiration_time := expiration_seconds }

/-- `NonceStore::generate_nonce`, with the fresh UUID and the current instant
supplied explicitly (in the source they come from `Uuid::new_v4()` and
`Instant::now()`). -/
def generate_nonce (s : NonceStore) (fresh : String) (now : Nat) : String × NonceStore :=
  (fresh, { s with nonces := insertN fresh { created_at := now, used := false } s.nonces })

/-- `NonceStore::verify_and_use_nonce`, the `TryConsume` operation.  `now` is
the instant at which `created_at.elapsed()` is read; `now - e.created_at` is
`Nat` subtraction, matching the saturating `Instant` arithmetic of Rust.
Returns the `bool` result of the source together with the updated store. -/
def verify_and_use_nonce (s : NonceStore) (now : Nat) (nonce : String) : Bool × NonceStore :=
  match lookupN nonce s.nonces with
  | none => (false, s)
  | some e =>
    if e.used then
      (false, s)
    else if now - e.created_at > s.expiration_time then
      (false, { s with nonces := eraseN nonce s.nonces })
    else
      (true, { s with nonces := insertN nonce { e with used := true } s.nonces })

end NonceStore

/-- `Payload` from `types.rs`.  `Vec<u8>` fields are lists of bytes. -/
structure Payload where
  nonce : String
  message : List (Fin 256)
  signature : List (Fin 256)
  public_key : List (Fin 256)
  deriving DecidableEq, Repr

/-- The type of the external Ed25519 verification primitive
(`ring::signature::UnparsedPublicKey::verify`): public-key bytes, message
bytes, signature bytes to success. -/
abbrev SigVerifier := List (Fin 256) → List (Fin 256) → List (Fin 256) → Bool

/-- What the `verify_signature` request handler does: either it produces an
HTTP response `status::Custom(code, body)`, or the thread panics (Rocket then
answers 500; the handler produced no response of its own). -/
inductive HandlerResult where
  | response (code : Nat) (body : String)
  | panicked
  deriving DecidableEq, Repr

/-- The `verify_signature` handler of `verifier.rs`.  The store lock is taken
for the whole body, so the handler is a function of the store state.  JSON
parsing of the raw body is abstracted into `payload : Option Payload` (the
outcome of `serde_json::from_str`); on a parse error the source maps the error
into a 400 response but then calls `.unwrap()` on the `Result`, which panics on
`Err`, so that branch yields `HandlerResult.panicked` with the store unchanged.
`ed25519` stands for the external `ring` verification primitive. -/
def verify_signature (ed25519 : SigVerifier) (payload : Option Payload)
    (s : NonceStore) (now : Nat) : HandlerResult × NonceStore :=
  match payload with
  | none => (.panicked, s)
  | some p =>
    let r := s.verify_and_use_nonce now p.nonce
    if r.1 = false then
      (.response 401 "Invalid or expired nonce", r.2)
    else if ed25519 p.public_key p.message p.signature then
      (.response 200 "Signature verified successfully", r.2)
    else
      (.response 401 "Invalid Signature", r.2)

/-- A call descriptor: the instant at which the call runs, and the identity it
tries to consume. -/
abbrev ConsumeCall := Nat × String

/-- Run a sequence of `verify_and_use_nonce` calls from `s`, counting how many
of the calls on identity `c` returned `true` (Accepted). -/
def acceptedCount (s : NonceStore) (c : String) : List ConsumeCall → Nat
  | [] => 0
  | (t, n) :: rest =>
    let r := s.verify_and_use_nonce t n
    (if n = c ∧ r.1 = true then 1 else 0) + acceptedCount r.2 c rest

/-- Abstract events of one execution of the `verify_signature` handler, used
to reason about the extent of the critical section. -/
inductive Ev where
  | lockAcquire
  | parseBody
  | tryConsume
  | ed25519Verify
  | lockRelease
  | panicUnwind
  deriving DecidableEq, Repr

/-- Control-flow trace of one `verify_signature` request, read off the source:
the handler first takes the store lock (`store.lock().unwrap()`), then parses
the body, then calls `verify_and_use_nonce`, then (when the nonce was
accepted) runs the `ring` Ed25519 verification.  The `MutexGuard` bound by
`let mut store = store.lock().unwrap()` is dropped only when the function
returns (Rust drop-at-end-of-scope), so `lockRelease` is the last event of
every returning path — in particular it comes after `ed25519Verify`; on a
parse failure the `.unwrap()` panics while the guard is still held. -/
def verify_signature_trace (parseOk nonceOk : Bool) : List Ev :=
  if parseOk = false then
    [.lockAcquire, .parseBody, .panicUnwind]
  else if nonceOk = false then
    [.lockAcquire, .parseBody, .tryConsume, .lockRelease]
  else
    [.lockAcquire, .parseBody, .tryConsume, .ed25519Verify, .lockRelease]

/-- JSON values as produced and consumed by `serde_json` for `Payload`. -/
inductive Json where
  | str (s : String)
  | num (n : Nat)
  | arr (xs : List Json)
  | obj (fields : List (String × Json))

/-- Serialization of a `Vec<u8>` field: a JSON array of numbers. -/
def serializeBytes (bs : List (Fin 256)) : Json :=
  .arr (bs.map fun b => .num b.val)

/-- The field list of the derived `Serialize` impl for `Payload`, in
declaration order. -/
def payloadFields (p : Payload) : List (String × Json) :=
  [("nonce", .str p.nonce), ("message", serializeBytes p.message),
   ("signature", serializeBytes p.signature), ("public_key", serializeBytes p.public_key)]

/-- `serde_json::to_string` of a `Payload`, at the JSON-value level. -/
def serializePayload (p : Payload) : Json :=
  .obj (payloadFields p)

/-- Deserialization of one byte: a JSON number in the `u8` range. -/
def deserializeByte : Json → Option (Fin 256)
  | .num n => if h : n < 256 then some ⟨n, h⟩ else none
  | _ => none

/-- Deserialization of a list of bytes; fails if any element fails. -/
def deserializeBytesList : List Json → Option (List (Fin 256))
  | [] => some []
  | j :: rest =>
    match deserializeByte j, deserializeBytesList rest with
    | some b, some bs => some (b :: bs)
    | _, _ => none

/-- Deserialization of a `Vec<u8>` field: expects a JSON array of numbers. -/
def deserializeBytes : Json → Option (List (Fin 256))
  | .arr xs => deserializeBytesList xs
  | _ => none

/-- Deserialization of a `String` field. -/
def deserializeStr : Json → Option String
  | .str s => some s
  | _ => none

/-- Field access in a JSON object.  The derived `Deserialize` impl accepts the
fields of `Payload` in any order and rejects duplicates; this lookup takes the
first occurrence, which agrees with serde on every duplicate-free object (the
only ones the round-trip statement ranges over). -/
def jsonLookup (k : String) : List (String × Json) → Option Json
  | [] => none
  | (k', v) :: rest => if k' = k then some v else jsonLookup k rest

/-- `serde_json::from_str` into `Payload`, at the JSON-value level: all four
fields must be present with values of the right shape, in any order. -/
def deserializePayload : Json → Option Payload
  | .obj fields =>
    (match jsonLookup "nonce" fields, jsonLookup "message" fields,
           jsonLookup "signature" fields, jsonLookup "public_key" fields with
     | some jn, some jm, some js, some jp =>
       (match deserializeStr jn, deserializeBytes jm,
              deserializeBytes js, deserializeBytes jp with
        | some n, some m, some sg, some pk =>
          some { nonce := n, message := m, signature := sg, public_key := pk }
        | _, _, _, _ => none)
     | _, _, _, _ => none)
  | _ => none

/-! ### Sample values used to instantiate the hypotheses of the theorems -/

/-- A signature primitive that accepts everything (stands for a proof whose
signature does verify). -/
def sampleVerifierTrue : SigVerifier := fun _ _ _ => true

/-- A signature primitive that rejects everything (stands for a proof whose
signature does not verify). -/
def sampleVerifierFalse : SigVerifier := fun _ _ _ => false

/-- A sample submitted payload whose nonce is `"c"`. -/
def samplePayload : Payload :=
  { nonce := "c", message := [7], signature := [1, 255], public_key := [2] }

/-- A store in which no nonce was ever issued. -/
def emptyStore : NonceStore := { nonces := [], expiration_time := 5 }

/-- A store holding one freshly issued, unconsumed nonce `"c"`. -/
def freshStore : NonceStore :=
  { nonces := [("c", { created_at := 0, used := false })], expiration_time := 5 }

/-- A store in which nonce `"c"` has already been consumed. -/
def usedStore : NonceStore :=
  { nonces := [("c", { created_at := 0, used := true })], expiration_time := 5 }

/-! ### Basic lemmas about the association-list map -/

theorem lookupN_eq_none_of_not_mem (k : String) (l : NonceMap)
    (h : k ∉ l.map Prod.fst) : lookupN k l = none := by
  induction l with
  | nil => rfl
  | cons hd tl ih =>
    simp only [List.map_cons, List.mem_cons, not_or] at h
    have : hd.1 ≠ k := fun he => h.1 he.symm
    simp [lookupN, this, ih h.2]

theorem lookupN_eraseN_self (k : String) (l : NonceMap)
    (hnd : (l.map Prod.fst).Nodup) : lookupN k (eraseN k l) = none := by
  induction l with
  | nil => rfl
  | cons hd tl ih =>
    simp only [List.map_cons, List.nodup_cons] at hnd
    by_cases h : hd.1 = k
    · subst h
      simp only [eraseN, if_pos rfl]
      exact lookupN_eq_none_of_not_mem hd.1 tl hnd.1
    · simp [eraseN, lookupN, h, ih hnd.2]

theorem lookupN_insertN_self (k : String) (v : NonceEntry) (l : NonceMap) :
    lookupN k (insertN k v l) = some v := by
  induction l with
  | nil => simp [insertN, lookupN]
  | cons hd tl ih =>
    by_cases h : hd.1 = k
    · simp [insertN, lookupN, h]
    · simp [insertN, lookupN, h, ih]

theorem lookupN_insertN_ne (k c : String) (v : NonceEntry) (l : NonceMap)
    (hne : k ≠ c) : lookupN c (insertN k v l) = lookupN c l := by
  induction l with
  | nil => simp [insertN, lookupN, hne]
  | cons hd tl ih =>
    by_cases h : hd.1 = k
    · simp [insertN, lookupN, h, hne]
    · simp only [insertN, lookupN, h, if_false]
      by_cases h2 : hd.1 = c <;> simp [lookupN, h2, ih]

theorem lookupN_eraseN_ne (k c : String) (l : NonceMap)
    (hne : k ≠ c) : lookupN c (eraseN k l) = lookupN c l := by
  induction l with
  | nil => simp [eraseN]
  | cons hd tl ih =>
    by_cases h : hd.1 = k
    · simp [eraseN, lookupN, h, hne]
    · simp only [eraseN, h, if_false]
      by_cases h2 : hd.1 = c <;> simp [lookupN, h2, ih]

/-! ### The three response shapes of the handler -/

theorem verify_signature_nonce_rejected (ed : SigVerifier) (p : Payload) (s : NonceStore)
    (now : Nat) (h : (s.verify_and_use_nonce now p.nonce).1 = false) :
    verify_signature ed (some p) s now =
      (HandlerResult.response 401 "Invalid or expired nonce",
        (s.verify_and_use_nonce now p.nonce).2) := by
  simp [verify_signature, h]

theorem verify_signature_sig_rejected (ed : SigVerifier) (p : Payload) (s : NonceStore)
    (now : Nat) (h : (s.verify_and_use_nonce now p.nonce).1 = true)
    (hs : ed p.public_key p.message p.signature = false) :
    verify_signature ed (some p) s now =
      (HandlerResult.response 401 "Invalid Signature",
        (s.verify_and_use_nonce now p.nonce).2) := by
  simp [verify_signature, h, hs]

theorem verify_signature_accepted (ed : SigVerifier) (p : Payload) (s : NonceStore)
    (now : Nat) (h : (s.verify_and_use_nonce now p.nonce).1 = true)
    (hs : ed p.public_key p.message p.signature = true) :
    verify_signature ed (some p) s now =
      (HandlerResult.response 200 "Signature verified successfully",
        (s.verify_and_use_nonce now p.nonce).2) := by
  simp [verify_signature, h, hs]

/-! ### Per-call facts about `verify_and_use_nonce` -/

namespace NonceStore

/-- A consumed entry makes `verify_and_use_nonce` a no-op returning `false`. -/
theorem consume_of_used (s : NonceStore) (now : Nat) (c : String) (e : NonceEntry)
    (hl : lookupN c s.nonces = some e) (hu : e.used = true) :
    s.verify_and_use_nonce now c = (false, s) := by
  simp [verify_and_use_nonce, hl, hu]

/-- An absent identity makes `verify_and_use_nonce` a no-op returning `false`. -/
theorem consume_of_none (s : NonceStore) (now : Nat) (c : String)
    (hl : lookupN c s.nonces = none) :
    s.verify_and_use_nonce now c = (false, s) := by
  simp [verify_and_use_nonce, hl]

/-- A consumed entry survives any `verify_and_use_nonce` call unchanged. -/
theorem lookupN_consume_of_used (s : NonceStore) (now : Nat) (n c : String) (e : NonceEntry)
    (hl : lookupN c s.nonces = some e) (hu : e.used = true) :
    lookupN c (s.verify_and_use_nonce now n).2.nonces = some e := by
  by_cases hnc : n = c
  · subst hnc
    rw [consume_of_used s now n e hl hu]
    exact hl
  · unfold verify_and_use_nonce
    match hln : lookupN n s.nonces with
    | none => simpa using hl
    | some en =>
      by_cases hue : en.used
      · simp [hue, hl]
      · by_cases hexp : now - en.created_at > s.expiration_time
        · simp [hue, hexp, lookupN_eraseN_ne n c s.nonces hnc, hl]
        · simp [hue, hexp, lookupN_insertN_ne n c _ s.nonces hnc, hl]

/-- An absent identity stays absent under any `verify_and_use_nonce` call
(the operation never inserts a new key). -/
theorem lookupN_consume_of_none (s : NonceStore) (now : Nat) (n c : String)
    (hl : lookupN c s.nonces = none) :
    lookupN c (s.verify_and_use_nonce now n).2.nonces = none := by
  by_cases hnc : n = c
  · subst hnc
    rw [consume_of_none s now n hl]
    exact hl
  · unfold verify_and_use_nonce
    match hln : lookupN n s.nonces with
    | none => simpa using hl
    | some en =>
      by_cases hue : en.used
      · simp [hue, hl]
      · by_cases hexp : now - en.created_at > s.expiration_time
        · simp [hue, hexp, lookupN_eraseN_ne n c s.nonces hnc, hl]
        · simp [hue, hexp, lookupN_insertN_ne n c _ s.nonces hnc, hl]

/-- After a call that returns `true`, the entry for that identity is present
and marked used. -/
theorem lookupN_consume_of_true (s : NonceStore) (now : Nat) (c : String)
    (h : (s.verify_and_use_nonce now c).1 = true) :
    ∃ a, lookupN c (s.verify_and_use_nonce now c).2.nonces =
      some { created_at := a, used := true } := by
  unfold verify_and_use_nonce at h ⊢
  match hln : lookupN c s.nonces with
  | none => simp [hln] at h
  | some en =>
    by_cases hue : en.used
    · simp [hln, hue] at h
    · by_cases hexp : now - en.created_at > s.expiration_time
      · simp [hln, hue, hexp] at h
      · exact ⟨en.created_at, by simp [hln, hue, hexp, lookupN_insertN_self]⟩

end NonceStore

/-! ### Sequences of `TryConsume` calls -/

/-- An identity that is absent or already consumed is never accepted in any
subsequent sequence of calls. -/
theorem acceptedCount_eq_zero (s : NonceStore) (c : String) (calls : List ConsumeCall)
    (h : lookupN c s.nonces = none ∨ ∃ e, lookupN c s.nonces = some e ∧ e.used = true) :
    acceptedCount s c calls = 0 := by
  induction calls generalizing s with
  | nil => rfl
  | cons hd rest ih =>
    obtain ⟨t, n⟩ := hd
    have hstep : lookupN c (s.verify_and_use_nonce t n).2.nonces = none ∨
        ∃ e, lookupN c (s.verify_and_use_nonce t n).2.nonces = some e ∧ e.used = true := by
      rcases h with hn | ⟨e, he, hu⟩
      · exact Or.inl (NonceStore.lookupN_consume_of_none s t n c hn)
      · exact Or.inr ⟨e, NonceStore.lookupN_consume_of_used s t n c e he hu, hu⟩
    by_cases hnc : n = c
    · subst hnc
      have hres : (s.verify_and_use_nonce t n).1 = false := by
        rcases h with hn | ⟨e, he, hu⟩
        · rw [NonceStore.consume_of_none s t n hn]
        · rw [NonceStore.consume_of_used s t n e he hu]
      simp [acceptedCount, hres, ih _ hstep]
    · simp [acceptedCount, hnc, ih _ hstep]

/-- Across any sequence of calls, an identity is accepted at most once. -/
theorem acceptedCount_le_one (s : NonceStore) (c : String) (calls : List ConsumeCall) :
    acceptedCount s c calls ≤ 1 := by
  induction calls generalizing s with
  | nil => exact Nat.zero_le 1
  | cons hd rest ih =>
    obtain ⟨t, n⟩ := hd
    by_cases hacc : n = c ∧ (s.verify_and_use_nonce t n).1 = true
    · obtain ⟨hnc, htrue⟩ := hacc
      subst hnc
      obtain ⟨a, ha⟩ := NonceStore.lookupN_consume_of_true s t n htrue
      have : acceptedCount (s.verify_and_use_nonce t n).2 n rest = 0 :=
        acceptedCount_eq_zero _ n rest (Or.inr ⟨_, ha, rfl⟩)
      simp [acceptedCount, htrue, this]
    · simpa [acceptedCount, hacc] using ih (s.verify_and_use_nonce t n).2

/-! ### Claim C4: expiration -/

/-- C4: for an identity whose record is present and unconsumed, a
`TryConsume` call strictly after `created + expiration` removes the record
(returning `false`, the `Expired` outcome, never `Accepted`), and a call at or
before `created + expiration` returns `Accepted` (`true`). -/
theorem expiration_of_nonce (s : NonceStore) (c : String) (e : NonceEntry) (now : Nat)
    (hl : lookupN c s.nonces = some e) (hu : e.used = false)
    (hnd : (s.nonces.map Prod.fst).Nodup) :
    (e.created_at + s.expiration_time < now →
      s.verify_and_use_nonce now c = (false, { s with nonces := eraseN c s.nonces }) ∧
      lookupN c (s.verify_and_use_nonce now c).2.nonces = none) ∧
    (now ≤ e.created_at + s.expiration_time →
      (s.verify_and_use_nonce now c).1 = true) := by
  constructor
  · intro hlate
    have hexp : now - e.created_at > s.expiration_time := by omega
    have heq : s.verify_and_use_nonce now c = (false, { s with nonces := eraseN c s.nonces }) := by
      simp [NonceStore.verify_and_use_nonce, hl, hu, hexp]
    exact ⟨heq, by rw [heq]; exact lookupN_eraseN_self c s.nonces hnd⟩
  · intro hearly
    have hexp : ¬ now - e.created_at > s.expiration_time := by omega
    simp [NonceStore.verify_and_use_nonce, hl, hu, hexp]

/-- Witness for `expiration_of_nonce` at a concrete store: with a 5-unit
expiration and creation instant 0, the call at instant 6 evicts and rejects,
the call at instant 5 accepts. -/
theorem expiration_of_nonce_witness :
    (freshStore.verify_and_use_nonce 6 "c" = (false, { nonces := [], expiration_time := 5 }) ∧
      lookupN "c" (freshStore.verify_and_use_nonce 6 "c").2.nonces = none) ∧
    (freshStore.verify_and_use_nonce 5 "c").1 = true :=
  ⟨(expiration_of_nonce freshStore "c" { created_at := 0, used := false } 6
      rfl rfl (by decide)).1 (by decide),
   (expiration_of_nonce freshStore "c" { created_at := 0, used := false } 5
      rfl rfl (by decide)).2 (by decide)⟩

/-! ### Claim C10: consumed records are permanent -/

/-- C10: a record already marked used makes every later `TryConsume` on that
identity return `false` (`AlreadyUsed`) with the store unchanged — even at
instants past the expiration window, since the used check precedes the
expiration check — and no `verify_and_use_nonce` call on any identity ever
evicts a consumed record. -/
theorem consumed_records_permanent (s : NonceStore) (c : String) (e : NonceEntry)
    (hl : lookupN c s.nonces = some e) (hu : e.used = true) :
    (∀ now, s.verify_and_use_nonce now c = (false, s)) ∧
    (∀ now n, lookupN c (s.verify_and_use_nonce now n).2.nonces = some e) :=
  ⟨fun now => NonceStore.consume_of_used s now c e hl hu,
   fun now n => NonceStore.lookupN_consume_of_used s now n c e hl hu⟩

/-- Witness for `consumed_records_permanent`: the consumed nonce `"c"` of
`usedStore` is rejected and kept at instant 1000, far past the 5-unit
expiration window, also under a call on a different identity. -/
theorem consumed_records_permanent_witness :
    usedStore.verify_and_use_nonce 1000 "c" = (false, usedStore) ∧
    lookupN "c" (usedStore.verify_and_use_nonce 1000 "x").2.nonces =
      some { created_at := 0, used := true } :=
  ⟨(consumed_records_permanent usedStore "c" { created_at := 0, used := true } rfl rfl).1 1000,
   (consumed_records_permanent usedStore "c" { created_at := 0, used := true } rfl rfl).2 1000 "x"⟩

/-! ### Claim C7: nonce rejection short-circuits the signature check -/

/-- C7: when `verify_and_use_nonce` rejects the proof's nonce, the handler's
response and resulting store state do not depend on the message, signature or
public-key bytes — nor on the signature-verification primitive itself, which
is never invoked on this path. -/
theorem nonce_rejection_short_circuit (ed ed' : SigVerifier) (s : NonceStore) (now : Nat)
    (c : String) (m sg pk m' sg' pk' : List (Fin 256))
    (h : (s.verify_and_use_nonce now c).1 = false) :
    verify_signature ed (some { nonce := c, message := m, signature := sg, public_key := pk }) s now =
    verify_signature ed' (some { nonce := c, message := m', signature := sg', public_key := pk' }) s now := by
  simp [verify_signature, h]

/-- Witness for `nonce_rejection_short_circuit`: on a store where `"c"` was
never issued, an always-accepting and an always-rejecting primitive with
different payload bytes produce the same response and store. -/
theorem nonce_rejection_short_circuit_witness :
    verify_signature sampleVerifierTrue
      (some { nonce := "c", message := [1], signature := [2], public_key := [3] }) emptyStore 0 =
    verify_signature sampleVerifierFalse
      (some { nonce := "c", message := [4], signature := [5], public_key := [6] }) emptyStore 0 :=
  nonce_rejection_short_circuit sampleVerifierTrue sampleVerifierFalse emptyStore 0 "c"
    [1] [2] [3] [4] [5] [6] rfl

/-! ### Claim C5: malformed payload handling (code bug) -/

/-- C5 (code bug): on a request body that does not parse into `Payload`, the
handler performs no nonce lookup, consumption or signature work and leaves the
store contents unchanged — but it does not surface the 400 `MalformedProof`
response either: the source builds that response in `map_err` and then calls
`.unwrap()` on the `Result`, which panics on `Err`, so the caller sees a
Rocket-level 500 and the store mutex, held at the time, is poisoned. -/
theorem malformed_payload_panics (ed : SigVerifier) (s : NonceStore) (now : Nat) :
    verify_signature ed none s now = (HandlerResult.panicked, s) := rfl

/-! ### Claim C1: single use of challenges -/

/-- C1: across any sequence of `TryConsume` calls, at most one call on an
identity returns `Accepted` (`true`); an identity absent from the store (never
issued) is never accepted, and each call on it returns `false` (`Unknown`);
and once a call on `c` has returned `Accepted`, every later call on `c`
returns a non-Accepted outcome. -/
theorem single_use_of_challenges (s : NonceStore) (c : String) (calls : List ConsumeCall) :
    acceptedCount s c calls ≤ 1 ∧
    (lookupN c s.nonces = none →
      acceptedCount s c calls = 0 ∧ ∀ t, (s.verify_and_use_nonce t c).1 = false) ∧
    (∀ t, (s.verify_and_use_nonce t c).1 = true →
      acceptedCount (s.verify_and_use_nonce t c).2 c calls = 0) :=
  ⟨acceptedCount_le_one s c calls,
   fun hn =>
     ⟨acceptedCount_eq_zero s c calls (Or.inl hn),
      fun t => by rw [NonceStore.consume_of_none s t c hn]⟩,
   fun t ht => by
     obtain ⟨a, ha⟩ := NonceStore.lookupN_consume_of_true s t c ht
     exact acceptedCount_eq_zero _ c calls (Or.inr ⟨_, ha, rfl⟩)⟩

/-- Witness for `single_use_of_challenges`: three consecutive calls on the
fresh nonce `"c"` accept at most once; on the empty store nothing is ever
accepted; after the accepting call at instant 0, the later call is refused. -/
theorem single_use_of_challenges_witness :
    acceptedCount freshStore "c" [(0, "c"), (1, "c"), (2, "c")] ≤ 1 ∧
    acceptedCount emptyStore "c" [(0, "c"), (1, "c")] = 0 ∧
    (emptyStore.verify_and_use_nonce 3 "c").1 = false ∧
    acceptedCount (freshStore.verify_and_use_nonce 0 "c").2 "c" [(1, "c")] = 0 :=
  ⟨(single_use_of_challenges freshStore "c" [(0, "c"), (1, "c"), (2, "c")]).1,
   ((single_use_of_challenges emptyStore "c" [(0, "c"), (1, "c")]).2.1 rfl).1,
   ((single_use_of_challenges emptyStore "c" [(0, "c"), (1, "c")]).2.1 rfl).2 3,
   (single_use_of_challenges freshStore "c" [(1, "c")]).2.2 0 rfl⟩

/-! ### Claim C2: verification outcome -/

/-- C2: the handler answers 200 "Signature verified successfully" exactly when
`verify_and_use_nonce` accepted the proof's nonce and the Ed25519 primitive
accepted the (public key, message, signature) bytes; in every other case the
response is a 401 rejection. -/
theorem valid_iff_fresh_nonce_and_valid_signature (ed : SigVerifier) (p : Payload)
    (s : NonceStore) (now : Nat) :
    ((verify_signature ed (some p) s now).1 =
        HandlerResult.response 200 "Signature verified successfully" ↔
      (s.verify_and_use_nonce now p.nonce).1 = true ∧
        ed p.public_key p.message p.signature = true) ∧
    (¬((s.verify_and_use_nonce now p.nonce).1 = true ∧
        ed p.public_key p.message p.signature = true) →
      ∃ m, (verify_signature ed (some p) s now).1 = HandlerResult.response 401 m) := by
  cases hc : (s.verify_and_use_nonce now p.nonce).1 <;>
    cases he : ed p.public_key p.message p.signature <;>
      simp [verify_signature, hc, he]

/-- Witness for `valid_iff_fresh_nonce_and_valid_signature`: on the fresh
store with an accepting primitive the response is 200; on the consumed store
the response is a 401. -/
theorem valid_iff_fresh_nonce_and_valid_signature_witness :
    (verify_signature sampleVerifierTrue (some samplePayload) freshStore 0).1 =
      HandlerResult.response 200 "Signature verified successfully" ∧
    ∃ m, (verify_signature sampleVerifierTrue (some samplePayload) usedStore 0).1 =
      HandlerResult.response 401 m :=
  ⟨(valid_iff_fresh_nonce_and_valid_signature sampleVerifierTrue samplePayload
      freshStore 0).1.mpr ⟨rfl, rfl⟩,
   (valid_iff_fresh_nonce_and_valid_signature sampleVerifierTrue samplePayload
      usedStore 0).2 (by decide)⟩

/-! ### Claim C3: burn on failure -/

/-- C3: on a fresh (present, unconsumed, unexpired) nonce with an invalid
signature, the handler answers 401 "Invalid Signature"; the nonce is consumed
by that request, so any later request with the same nonce — even with a valid
signature — answers 401 "Invalid or expired nonce", and every later
`TryConsume` on that identity returns `false`, never `Accepted`. -/
theorem burn_on_failure (ed ed' : SigVerifier) (p p' : Payload) (s : NonceStore)
    (now now' : Nat) (e : NonceEntry)
    (hl : lookupN p.nonce s.nonces = some e) (hu : e.used = false)
    (hexp : ¬ now - e.created_at > s.expiration_time)
    (hsig : ed p.public_key p.message p.signature = false)
    (hn : p'.nonce = p.nonce) :
    (verify_signature ed (some p) s now).1 = HandlerResult.response 401 "Invalid Signature" ∧
    (verify_signature ed' (some p') (verify_signature ed (some p) s now).2 now').1 =
      HandlerResult.response 401 "Invalid or expired nonce" ∧
    ∀ t, ((verify_signature ed (some p) s now).2.verify_and_use_nonce t p.nonce).1 = false := by
  have hcons : s.verify_and_use_nonce now p.nonce =
      (true, { s with nonces := insertN p.nonce { e with used := true } s.nonces }) := by
    simp [NonceStore.verify_and_use_nonce, hl, hu, hexp]
  have hfull : verify_signature ed (some p) s now =
      (HandlerResult.response 401 "Invalid Signature",
        (s.verify_and_use_nonce now p.nonce).2) :=
    verify_signature_sig_rejected ed p s now (by rw [hcons]) hsig
  have hlook : lookupN p.nonce (verify_signature ed (some p) s now).2.nonces =
      some { e with used := true } := by
    rw [hfull, hcons]
    exact lookupN_insertN_self p.nonce { e with used := true } s.nonces
  have hburn : ∀ t, (verify_signature ed (some p) s now).2.verify_and_use_nonce t p.nonce =
      (false, (verify_signature ed (some p) s now).2) := fun t =>
    NonceStore.consume_of_used (verify_signature ed (some p) s now).2 t p.nonce
      { e with used := true } hlook rfl
  refine ⟨by rw [hfull], ?_, fun t => by rw [hburn t]⟩
  have h2 : ((verify_signature ed (some p) s now).2.verify_and_use_nonce now' p'.nonce).1 =
      false := by rw [hn, hburn now']
  rw [verify_signature_nonce_rejected ed' p' _ now' h2]

/-- Witness for `burn_on_failure`: the fresh nonce `"c"`, submitted with a
rejected signature at instant 0, yields "Invalid Signature"; resubmitting the
same nonce with an accepting primitive at instant 1 yields "Invalid or expired
nonce", and a direct consume attempt at instant 2 returns `false`. -/
theorem burn_on_failure_witness :
    (verify_signature sampleVerifierFalse (some samplePayload) freshStore 0).1 =
      HandlerResult.response 401 "Invalid Signature" ∧
    (verify_signature sampleVerifierTrue (some samplePayload)
      (verify_signature sampleVerifierFalse (some samplePayload) freshStore 0).2 1).1 =
      HandlerResult.response 401 "Invalid or expired nonce" ∧
    ((verify_signature sampleVerifierFalse (some samplePayload) freshStore 0).2.verify_and_use_nonce
      2 "c").1 = false :=
  have h := burn_on_failure sampleVerifierFalse sampleVerifierTrue samplePayload samplePayload
    freshStore 0 1 { created_at := 0, used := false } rfl rfl (by decide) rfl rfl
  ⟨h.1, h.2.1, h.2.2 2⟩

/-! ### Claim C6: rejection reasons (corrected) -/

/-- C6 counterexample: the responses for an unknown nonce, an already-used
nonce and an expired nonce are all the identical
`401 "Invalid or expired nonce"`, so the three nonce-rejection taxonomy
entries are not pairwise distinguishable to the caller and the `TryConsume`
reason (a bare `bool` in the source) is not carried through. -/
theorem nonce_rejections_indistinguishable :
    (verify_signature sampleVerifierTrue (some samplePayload) emptyStore 0).1 =
      (verify_signature sampleVerifierTrue (some samplePayload) usedStore 0).1 ∧
    (verify_signature sampleVerifierTrue (some samplePayload) usedStore 0).1 =
      (verify_signature sampleVerifierTrue (some samplePayload) freshStore 6).1 ∧
    (verify_signature sampleVerifierTrue (some samplePayload) emptyStore 0).1 =
      HandlerResult.response 401 "Invalid or expired nonce" := by
  refine ⟨rfl, ?_, rfl⟩
  rfl

/-- C6 (amended): rejected requests carry one of exactly two stable reasons —
every nonce rejection (unknown, already used, or expired alike) yields the
single response `401 "Invalid or expired nonce"`, and a signature failure on
an accepted nonce yields the distinct response `401 "Invalid Signature"`; the
finer `TryConsume` reason is not carried through. -/
theorem rejection_reasons_two_families (ed : SigVerifier) (p : Payload)
    (s : NonceStore) (now : Nat) :
    ((s.verify_and_use_nonce now p.nonce).1 = false →
      (verify_signature ed (some p) s now).1 =
        HandlerResult.response 401 "Invalid or expired nonce") ∧
    ((s.verify_and_use_nonce now p.nonce).1 = true →
      ed p.public_key p.message p.signature = false →
      (verify_signature ed (some p) s now).1 =
        HandlerResult.response 401 "Invalid Signature") ∧
    HandlerResult.response 401 "Invalid or expired nonce" ≠
      HandlerResult.response 401 "Invalid Signature" := by
  refine ⟨fun hc => by simp [verify_signature, hc], fun hc hs => by simp [verify_signature, hc, hs], ?_⟩
  intro h
  simp at h

/-- Witness for `rejection_reasons_two_families`: the empty store produces the
nonce-rejection response, the fresh store with a rejecting primitive produces
the signature-rejection response. -/
theorem rejection_reasons_two_families_witness :
    (verify_signature sampleVerifierTrue (some samplePayload) emptyStore 0).1 =
      HandlerResult.response 401 "Invalid or expired nonce" ∧
    (verify_signature sampleVerifierFalse (some samplePayload) freshStore 0).1 =
      HandlerResult.response 401 "Invalid Signature" :=
  ⟨(rejection_reasons_two_families sampleVerifierTrue samplePayload emptyStore 0).1 rfl,
   (rejection_reasons_two_families sampleVerifierFalse samplePayload freshStore 0).2.1 rfl rfl⟩

/-! ### Claim C8: lock scope (corrected) -/

/-- C8 counterexample: on the accepted path the handler's event order is
lock, parse, consume, Ed25519 verification, release — the lock release is
*not* before the Ed25519 verification; the `MutexGuard` is dropped only at
handler return, so the signature check runs inside the critical section. -/
theorem ed25519_runs_inside_lock :
    verify_signature_trace true true =
      [Ev.lockAcquire, Ev.parseBody, Ev.tryConsume, Ev.ed25519Verify, Ev.lockRelease] ∧
    ¬ ((verify_signature_trace true true).indexOf Ev.lockRelease <
        (verify_signature_trace true true).indexOf Ev.ed25519Verify) := by
  decide

/-- C8 (amended): whenever Ed25519 verification runs, it runs strictly before
the lock release, which is the final event of the handler — signature
checking is executed while the store lock is held, so it does serialize
concurrent requests. -/
theorem ed25519_verification_under_lock (parseOk nonceOk : Bool)
    (h : Ev.ed25519Verify ∈ verify_signature_trace parseOk nonceOk) :
    (verify_signature_trace parseOk nonceOk).indexOf Ev.ed25519Verify <
      (verify_signature_trace parseOk nonceOk).indexOf Ev.lockRelease ∧
    (verify_signature_trace parseOk nonceOk).getLast? = some Ev.lockRelease := by
  cases parseOk <;> cases nonceOk <;> revert h <;> decide

/-- Witness for `ed25519_verification_under_lock` on the accepted path. -/
theorem ed25519_verification_under_lock_witness :
    Ev.ed25519Verify ∈ verify_signature_trace true true ∧
    ((verify_signature_trace true true).indexOf Ev.ed25519Verify <
        (verify_signature_trace true true).indexOf Ev.lockRelease ∧
      (verify_signature_trace true true).getLast? = some Ev.lockRelease) :=
  ⟨by decide, ed25519_verification_under_lock true true (by decide)⟩

/-! ### Claim C9: payload serialization round-trip -/

theorem deserializeBytesList_map_num (bs : List (Fin 256)) :
    deserializeBytesList (bs.map fun b => Json.num b.val) = some bs := by
  induction bs with
  | nil => rfl
  | cons b tl ih => simp [deserializeBytesList, deserializeByte, b.isLt, Fin.eta, ih]

theorem deserializeBytes_serializeBytes (bs : List (Fin 256)) :
    deserializeBytes (serializeBytes bs) = some bs := by
  simp [deserializeBytes, serializeBytes, deserializeBytesList_map_num bs]

/-- A permutation of a duplicate-free field list has the same lookups. -/
theorem jsonLookup_perm (k : String) (l l' : List (String × Json)) (hp : l.Perm l')
    (hnd : (l'.map Prod.fst).Nodup) : jsonLookup k l = jsonLookup k l' := by
  induction hp with
  | nil => rfl
  | cons x h ih =>
    simp only [List.map_cons, List.nodup_cons] at hnd
    by_cases hx : x.1 = k <;> simp [jsonLookup, hx, ih hnd.2]
  | swap x y l =>
    simp only [List.map_cons, List.nodup_cons, List.mem_cons] at hnd
    have hxy : y.1 ≠ x.1 := fun he => hnd.1 (Or.inl he.symm)
    by_cases hx : x.1 = k
    · have hy : y.1 ≠ k := hx ▸ hxy
      simp [jsonLookup, hx, hy]
    · by_cases hy : y.1 = k <;> simp [jsonLookup, hx, hy]
  | trans h1 h2 ih1 ih2 =>
    have hm := ((h2.map Prod.fst).nodup_iff).mpr hnd
    rw [ih1 hm, ih2 hnd]

theorem payloadFields_keys_nodup (p : Payload) :
    ((payloadFields p).map Prod.fst).Nodup := by
  have h : (payloadFields p).map Prod.fst =
      ["nonce", "message", "signature", "public_key"] := rfl
  rw [h]
  decide

theorem deserializePayload_of_lookups (fields : List (String × Json)) (p : Payload)
    (h1 : jsonLookup "nonce" fields = some (Json.str p.nonce))
    (h2 : jsonLookup "message" fields = some (serializeBytes p.message))
    (h3 : jsonLookup "signature" fields = some (serializeBytes p.signature))
    (h4 : jsonLookup "public_key" fields = some (serializeBytes p.public_key)) :
    deserializePayload (Json.obj fields) = some p := by
  simp [deserializePayload, h1, h2, h3, h4, deserializeStr, deserializeBytes_serializeBytes]

/-- C9: serializing a `Payload` and deserializing the result restores exactly
the same nonce string and byte sequences, and deserialization gives the same
result for any reordering of the serialized fields. -/
theorem payload_serialization_roundtrip (p : Payload) (fields : List (String × Json))
    (hp : fields.Perm (payloadFields p)) :
    deserializePayload (serializePayload p) = some p ∧
    deserializePayload (Json.obj fields) = some p := by
  have key : ∀ k, jsonLookup k fields = jsonLookup k (payloadFields p) :=
    fun k => jsonLookup_perm k fields (payloadFields p) hp (payloadFields_keys_nodup p)
  exact ⟨deserializePayload_of_lookups (payloadFields p) p rfl rfl rfl rfl,
    deserializePayload_of_lookups fields p
      ((key "nonce").trans rfl) ((key "message").trans rfl)
      ((key "signature").trans rfl) ((key "public_key").trans rfl)⟩

/-- Witness for `payload_serialization_roundtrip`: the sample payload
round-trips, also with the first two serialized fields transposed. -/
theorem payload_serialization_roundtrip_witness :
    deserializePayload (serializePayload samplePayload) = some samplePayload ∧
    deserializePayload (Json.obj
      [("message", serializeBytes samplePayload.message),
       ("nonce", Json.str samplePayload.nonce),
       ("signature", serializeBytes samplePayload.signature),
       ("public_key", serializeBytes samplePayload.public_key)]) = some samplePayload :=
  payload_serialization_roundtrip samplePayload _ (List.Perm.swap _ _ _)

end ChallengeResponse
